import Mathlib

/-!
Verification of the model-alias resolution and request-dispatch contract of
the `llm` command-line client (`src/llm.py`), via a shallow embedding of the
program into Lean.  Strings are modelled as Lean `String` (a list of
characters); Python `str.strip`, `str.lower`, substring containment (`in`)
and `" ".join` are embedded as executable functions below.  Network and file
I/O are modelled by passing in explicit outcome values (`ProbeOutcome`,
`GenOutcome`, `FileResult`) describing what the external world returns; the
embedded `main` reports its exit code together with the ordered trace of
network operations it performed.
-/

/-- Characters removed by Python `str.strip()` (ASCII whitespace; the
claims only involve ASCII inputs, so Unicode whitespace is not modelled). -/
def pyIsSpace (c : Char) : Bool :=
  c = ' ' || c = '\t' || c = '\n' || c = '\r' || c = '\x0b' || c = '\x0c'

/-- Embedding of Python `str.strip()`: drop whitespace from both ends. -/
def pyStrip (s : String) : String :=
  ⟨((s.data.dropWhile pyIsSpace).reverse.dropWhile pyIsSpace).reverse⟩

/-- Embedding of Python `str.lower()` (ASCII case mapping, which covers the
alias tokens and all inputs that appear in the claims). -/
def pyLower (s : String) : String :=
  ⟨s.data.map Char.toLower⟩

/-- Embedding of the Python substring test `needle in hay`:
`needle` occurs contiguously somewhere in `hay`. -/
def listContains (needle : List Char) : List Char → Bool
  | [] => needle.isPrefixOf []
  | c :: rest => needle.isPrefixOf (c :: rest) || listContains needle rest

/-- Embedding of Python `" ".join(parts)`. -/
def joinSpace : List String → String
  | [] => ""
  | [a] => a
  | a :: rest => a ++ " " ++ joinSpace rest

/-- `src/llm.py` line 15: the generation endpoint. -/
def OLLAMA_API : String := "http://localhost:11434/api/generate"

/-- `src/llm.py` line 16: the liveness/listing endpoint. -/
def OLLAMA_TAGS_API : String := "http://localhost:11434/api/tags"

/-- `src/llm.py` line 17. -/
def DEFAULT_MODEL : String := "phi3:latest"

/-- `src/llm.py` lines 18-22: the alias table, as a list of
(alias token, canonical identifier) pairs in the dict's insertion order,
which is Python 3.7+ dict iteration order. -/
def ALIAS_MAP : List (String × String) :=
  [("qwen", "qwen3-vl:235b-cloud"),
   ("deepseek", "deepseek-r1:8b"),
   ("phi3", "phi3:latest")]

/-- The value set of the alias table (`ALIAS_MAP.values()` in the source). -/
def aliasValues : List String := ALIAS_MAP.map Prod.snd

/-- The lowered, stripped form of the requested name
(`src/llm.py` lines 29 and 33). -/
def loweredInput (s : String) : String := pyLower (pyStrip s)

/-- The `for alias, actual in ALIAS_MAP.items()` loop of
`resolve_model_name` (`src/llm.py` lines 34-36): the canonical identifier
of the first table entry whose alias token occurs in `lowered`. -/
def aliasLoop (lowered : String) : List (String × String) → Option String
  | [] => none
  | (tok, actual) :: rest =>
    if listContains tok.data lowered.data then some actual
    else aliasLoop lowered rest

/-- Embedding of `resolve_model_name` (`src/llm.py` lines 24-41).
A raised `ValueError` is modelled as `Except.error` carrying the
exception's message string. -/
def resolve_model_name (requested_name : String) : Except String String :=
  if requested_name = "" then .ok requested_name
  else
    let stripped := pyStrip requested_name
    if stripped = "" then .ok stripped
    else
      match aliasLoop (pyLower stripped) ALIAS_MAP with
      | some actual => .ok actual
      | none =>
        if aliasValues.contains stripped then .ok stripped
        else .error "that model isn\x27t available"

/-- The kinds of `requests` exceptions the liveness GET can raise.
In the `requests` library, `ConnectionError` covers refused connections,
DNS failures and (via the subclass `ConnectTimeout`) connect timeouts,
while `ReadTimeout` subclasses only `Timeout`, not `ConnectionError`. -/
inductive ProbeExn where
  | connectionRefused
  | dnsFailure
  | connectTimeout
  | readTimeout
  deriving DecidableEq

/-- Whether the exception is an instance of `requests.ConnectionError`
(the only class caught by `is_ollama_running`, `src/llm.py` line 47). -/
def isConnectionError : ProbeExn → Bool
  | .connectionRefused => true
  | .dnsFailure => true
  | .connectTimeout => true
  | .readTimeout => false

/-- Outcome of the liveness GET to `OLLAMA_TAGS_API`: either an HTTP
response with a status code, or a raised `requests` exception. -/
inductive ProbeOutcome where
  | ok (status : Nat)
  | exn (e : ProbeExn)
  deriving DecidableEq

/-- Embedding of `is_ollama_running` (`src/llm.py` lines 43-48).
`Except.error e` means the exception `e` escaped the function
(only `requests.ConnectionError` instances are caught). -/
def is_ollama_running (o : ProbeOutcome) : Except ProbeExn Bool :=
  match o with
  | .ok _ => .ok true
  | .exn e => if isConnectionError e then .ok false else .error e

/-- Outcome of the generation POST to `OLLAMA_API`: a raised transport
exception (including the 60-second timeout), or an HTTP response with a
status code and a body; `none` for the body means `response.json()` fails,
`some fields` is the parsed JSON object restricted to its string fields. -/
inductive GenOutcome where
  | transportError
  | response (status : Nat) (body : Option (List (String × String)))
  deriving DecidableEq

/-- The exceptions `query_ollama` can raise. -/
inductive GenError where
  | transport
  | httpStatus (n : Nat)
  | malformed
  deriving DecidableEq

/-- Embedding of Python `dict.get` for the parsed JSON object:
the value of the first binding of `k`, if any. -/
def lookupField (fields : List (String × String)) (k : String) : Option String :=
  (fields.find? (fun p => p.1 == k)).map Prod.snd

/-- Embedding of `query_ollama` (`src/llm.py` lines 50-59).  The POST body
carries `model`, `prompt` and `stream: false`; `raise_for_status()` raises
for any status in [400, 600); then `data.get("response", "").strip()`. -/
def query_ollama (prompt : String) (model : String) (o : GenOutcome) :
    Except GenError String :=
  match o with
  | .transportError => .error .transport
  | .response status body =>
    if 400 ≤ status ∧ status < 600 then .error (.httpStatus status)
    else
      match body with
      | none => .error .malformed
      | some fields => .ok (pyStrip ((lookupField fields "response").getD ""))

/-- Outcome of reading the file passed to `--summarise`:
missing/not-a-file, a read error, or the file's text
(`src/llm.py` lines 63-72). -/
inductive FileResult where
  | notFound
  | readError
  | content (text : String)
  deriving DecidableEq

/-- The external world of one invocation: what the liveness GET returns,
what reading each path returns, and what the generation POST returns. -/
structure World where
  probe : ProbeOutcome
  file : String → FileResult
  gen : GenOutcome

/-- A network operation performed during an invocation, in order. -/
inductive NetOp where
  | probe
  | generate (model : String) (prompt : String)
  deriving DecidableEq

/-- The summarisation prompt built by `summarise_file`
(`src/llm.py` lines 80-87), around the file's first 8000 characters. -/
def summarisePrompt (text : String) : String :=
  "You are an expert technical writer, not a shell or programming assistant. " ++
  "Your only job is to read the following text and produce a short, clear summary " ++
  "in natural language. Do NOT output code, commands, or instructions. " ++
  "Respond in plain English prose in 3-5 sentences.\n\n" ++
  "--- BEGIN TEXT ---\n" ++ text.take 8000 ++ "\n--- END TEXT ---\n\n" ++
  "Summary:"

/-- The question prompt built in the normal question path
(`src/llm.py` lines 172-176). -/
def questionPrompt (question : String) : String :=
  "You are a concise command-line assistant. " ++
  "Return clear answers and minimal explanations, using code blocks where helpful.\n\n" ++
  "Question: " ++ question ++ "\n"

/-- Embedding of `summarise_file` (`src/llm.py` lines 61-94): exit code and
the network operations it performs.  File errors and an empty (after
stripping) file call `sys.exit(1)`; the `query_ollama` call is NOT wrapped
in try/except here, so a raised exception terminates the process with
exit code 1 (CPython's code for an unhandled exception); on success the
caller `main` reaches `sys.exit(0)`. -/
def summarise_file (w : World) (file_path : String) (model : String) :
    Nat × List NetOp :=
  match w.file file_path with
  | .notFound => (1, [])
  | .readError => (1, [])
  | .content text =>
    if pyStrip text = "" then (1, [])
    else
      match query_ollama (summarisePrompt text) model w.gen with
      | .error _ => (1, [.generate model (summarisePrompt text)])
      | .ok _ => (0, [.generate model (summarisePrompt text)])

/-- Result of the flag-with-value extraction pattern used for `--model`
(`src/llm.py` lines 112-120) and `--summarise` (lines 123-131):
the flag is absent, or present with no following value (the `IndexError`
path), or present with its value, with the pair sliced out of the list. -/
inductive OptResult where
  | absent
  | missingValue
  | found (value : String) (rest : List String)
  deriving DecidableEq

/-- Embedding of the extraction pattern: `flag in args` guard,
`idx = args.index(flag)`, `value = args[idx + 1]` (IndexError if the flag
is last), `del args[idx:idx + 2]`. -/
def extractOpt (flag : String) (args : List String) : OptResult :=
  if args.contains flag then
    let idx := args.indexOf flag
    match args.get? (idx + 1) with
    | some v => .found v (args.take idx ++ args.drop (idx + 2))
    | none => .missingValue
  else .absent

/-- How one invocation's argument list parses (`src/llm.py` lines 98-131,
150-153): usage error on no arguments; a missing value after `--model` or
`--summarise`; otherwise the summarise path or the question path, each with
the selected model, the remaining arguments, and the `--verbose` / `--raw`
membership flags computed on the ORIGINAL argument list. -/
inductive ParseResult where
  | usage
  | missingModelValue
  | missingSummariseValue (model : String) (verbose raw specified : Bool)
  | summarise (model file_path : String) (rest : List String)
      (verbose raw specified : Bool)
  | question (model : String) (rest : List String)
      (verbose raw specified : Bool)
  deriving DecidableEq

/-- The `--summarise` handling that follows `--model` extraction
(`src/llm.py` lines 123-131): applied to the argument list as mutated by
the `--model` deletion. -/
def afterModel (model : String) (specified : Bool) (args : List String)
    (verbose raw : Bool) : ParseResult :=
  match extractOpt "--summarise" args with
  | .missingValue => .missingSummariseValue model verbose raw specified
  | .found fp rest => .summarise model fp rest verbose raw specified
  | .absent => .question model args verbose raw specified

/-- Embedding of the argument parsing at the top of `main`
(`src/llm.py` lines 98-131): `--verbose` and `--raw` are detected by
membership tests on the original list and never removed (lines 110-111 and
151-152 are commented out in the source); only the `--model` and
`--summarise` flag/value pairs are deleted. -/
def parseArgs (args : List String) : ParseResult :=
  if args = [] then .usage
  else
    let verbose := args.contains "--verbose"
    let raw := args.contains "--raw"
    match extractOpt "--model" args with
    | .missingValue => .missingModelValue
    | .found m rest => afterModel m true rest verbose raw
    | .absent => afterModel DEFAULT_MODEL false args verbose raw

/-- Embedding of `main` (`src/llm.py` lines 96-188; named `mainRun` since
Lean reserves `main` for entry points): the process exit code
together with the ordered list of network operations performed.  In both
the summarise and the question path the liveness probe runs first, then
alias resolution, then the generation call.  A probe exception that escapes
`is_ollama_running` terminates the process with exit code 1 (unhandled
exception) after the probe GET was already attempted.  In the question path
the `query_ollama` call sits in a `try/except` that prints the error, so
the process falls off the end of `main` and exits 0 either way. -/
def mainRun (args : List String) (w : World) : Nat × List NetOp :=
  match parseArgs args with
  | .usage => (1, [])
  | .missingModelValue => (1, [])
  | .missingSummariseValue _ _ _ _ => (1, [])
  | .summarise model file_path _rest _v _r _sp =>
    match is_ollama_running w.probe with
    | .error _ => (1, [.probe])
    | .ok false => (1, [.probe])
    | .ok true =>
      match resolve_model_name model with
      | .error _ => (1, [.probe])
      | .ok resolved =>
        ((summarise_file w file_path resolved).1,
         .probe :: (summarise_file w file_path resolved).2)
  | .question model rest _v _r _sp =>
    match is_ollama_running w.probe with
    | .error _ => (1, [.probe])
    | .ok false => (1, [.probe])
    | .ok true =>
      match resolve_model_name model with
      | .error _ => (1, [.probe])
      | .ok resolved =>
        (0, [.probe, .generate resolved (questionPrompt (joinSpace rest))])

/-! ### Helper lemmas about the resolver -/

theorem pyStrip_empty : pyStrip "" = "" := rfl

theorem resolve_of_stripped_ne (s : String) (h1 : pyStrip s ≠ "") :
    resolve_model_name s =
      match aliasLoop (pyLower (pyStrip s)) ALIAS_MAP with
      | some actual => .ok actual
      | none =>
        if aliasValues.contains (pyStrip s) then .ok (pyStrip s)
        else .error "that model isn\x27t available" := by
  have h0 : s ≠ "" := by
    intro e
    exact h1 (by rw [e]; exact pyStrip_empty)
  simp only [resolve_model_name, if_neg h0, if_neg h1]

theorem resolve_of_alias (s actual : String)
    (h : aliasLoop (pyLower (pyStrip s)) ALIAS_MAP = some actual)
    (h1 : pyStrip s ≠ "") :
    resolve_model_name s = .ok actual := by
  rw [resolve_of_stripped_ne s h1, h]

/-- C1: if the trimmed, lowercased input contains an alias token of the
table, `resolve_model_name` returns the canonical identifier of the FIRST
matching alias in the table's iteration order (qwen, then deepseek, then
phi3), even when a later alias also matches. -/
theorem resolve_first_alias_match (s : String) :
    (listContains "qwen".data (loweredInput s).data = true →
      resolve_model_name s = .ok "qwen3-vl:235b-cloud") ∧
    (listContains "qwen".data (loweredInput s).data = false →
      listContains "deepseek".data (loweredInput s).data = true →
      resolve_model_name s = .ok "deepseek-r1:8b") ∧
    (listContains "qwen".data (loweredInput s).data = false →
      listContains "deepseek".data (loweredInput s).data = false →
      listContains "phi3".data (loweredInput s).data = true →
      resolve_model_name s = .ok "phi3:latest") := by
  refine ⟨?_, ?_, ?_⟩
  · intro h
    simp only [loweredInput] at h
    have h1 : pyStrip s ≠ "" := by
      intro e
      rw [e] at h
      exact absurd h (by decide)
    exact resolve_of_alias s _ (by simp [aliasLoop, ALIAS_MAP, h]) h1
  · intro hq h
    simp only [loweredInput] at hq h
    have h1 : pyStrip s ≠ "" := by
      intro e
      rw [e] at h
      exact absurd h (by decide)
    exact resolve_of_alias s _ (by simp [aliasLoop, ALIAS_MAP, hq, h]) h1
  · intro hq hd h
    simp only [loweredInput] at hq hd h
    have h1 : pyStrip s ≠ "" := by
      intro e
      rw [e] at h
      exact absurd h (by decide)
    exact resolve_of_alias s _ (by simp [aliasLoop, ALIAS_MAP, hq, hd, h]) h1

/-- C1 witness: " QwenDeepSeek " matches both the qwen and the deepseek
alias; the first one in table order wins. -/
theorem resolve_first_alias_match_witness :
    listContains "qwen".data (loweredInput " QwenDeepSeek ").data = true ∧
    listContains "deepseek".data (loweredInput " QwenDeepSeek ").data = true ∧
    resolve_model_name " QwenDeepSeek " = .ok "qwen3-vl:235b-cloud" :=
  ⟨by decide, by decide, (resolve_first_alias_match " QwenDeepSeek ").1 (by decide)⟩

/-- C5 counterexample: the `ValueError` raised for an unknown model has the
fixed message "that model isn\x27t available"; the original requested token
does not occur in it, so the error does not carry the requested token. -/
theorem resolve_unknown_message_omits_token :
    resolve_model_name "totally-unknown-xyz" = .error "that model isn\x27t available" ∧
    listContains "totally-unknown-xyz".data "that model isn\x27t available".data = false :=
  ⟨rfl, by decide⟩

/-- C5 (amended): for every trimmed, non-empty input that matches no alias
token and is not a canonical identifier, `resolve_model_name` fails with a
`ValueError` whose message is the fixed string "that model isn\x27t
available" (which does not carry the requested token). -/
theorem resolve_unknown_fixed_message (s : String)
    (h1 : pyStrip s ≠ "")
    (h2 : aliasLoop (loweredInput s) ALIAS_MAP = none)
    (h3 : aliasValues.contains (pyStrip s) = false) :
    resolve_model_name s = .error "that model isn\x27t available" := by
  simp only [loweredInput] at h2
  rw [resolve_of_stripped_ne s h1, h2]
  rw [if_neg]
  intro hc
  rw [h3] at hc
  simp at hc

/-- C5 witness: "totally-unknown-xyz" satisfies the hypotheses and fails
with the fixed message. -/
theorem resolve_unknown_fixed_message_witness :
    pyStrip "totally-unknown-xyz" ≠ "" ∧
    aliasLoop (loweredInput "totally-unknown-xyz") ALIAS_MAP = none ∧
    aliasValues.contains (pyStrip "totally-unknown-xyz") = false ∧
    resolve_model_name "totally-unknown-xyz" = .error "that model isn\x27t available" :=
  ⟨by decide, by decide, by decide,
    resolve_unknown_fixed_message _ (by decide) (by decide) (by decide)⟩

/-- C8: `resolve_model_name` is the identity on the value set of the alias
table: each canonical identifier resolves to itself (each one happens to
contain its own alias token, so the alias branch returns it unchanged). -/
theorem resolve_identity_on_values (v : String)
    (h : aliasValues.contains v = true) :
    resolve_model_name v = .ok v := by
  simp [aliasValues, ALIAS_MAP, List.contains] at h
  rcases h with h | h | h <;> subst h <;> rfl

/-- C8 witness: the canonical identifier "deepseek-r1:8b" resolves to
itself. -/
theorem resolve_identity_on_values_witness :
    aliasValues.contains "deepseek-r1:8b" = true ∧
    resolve_model_name "deepseek-r1:8b" = .ok "deepseek-r1:8b" :=
  ⟨by decide, resolve_identity_on_values _ (by decide)⟩

/-- C9 counterexample: on the whitespace-only input " ", `resolve_model_name`
returns the stripped string "" — NOT the input unchanged. -/
theorem resolve_whitespace_not_unchanged :
    resolve_model_name " " = .ok "" ∧ (" " : String) ≠ "" :=
  ⟨rfl, by decide⟩

/-- C9 (amended): for every input that is empty after stripping,
`resolve_model_name` returns the STRIPPED input, i.e. the empty string,
without attempting any resolution; in particular it returns the original
input unchanged exactly when that input is already `""`. -/
theorem resolve_empty_after_strip (s : String) (h : pyStrip s = "") :
    resolve_model_name s = .ok "" := by
  by_cases h0 : s = ""
  · subst h0; rfl
  · simp only [resolve_model_name, if_neg h0]
    rw [h]
    simp

/-- C9 witness: the whitespace-only input "   " strips to empty and
resolves to `.ok ""`. -/
theorem resolve_empty_after_strip_witness :
    pyStrip "   " = "" ∧ resolve_model_name "   " = .ok "" :=
  ⟨by decide, resolve_empty_after_strip _ (by decide)⟩

/-- C2 counterexample: a read timeout of the probe (the server accepted the
connection but did not answer within the 1-second timeout) raises
`requests.ReadTimeout`, which is NOT a `requests.ConnectionError`, so
`is_ollama_running` propagates it instead of returning false. -/
theorem is_ollama_running_read_timeout_propagates :
    is_ollama_running (.exn .readTimeout) = .error .readTimeout := rfl

/-- C2 (amended): `is_ollama_running` returns true on any HTTP response
regardless of status code, returns false on every probe exception that is a
`requests.ConnectionError` (connection refused, DNS failure, connect
timeout), and propagates a read timeout to the caller. -/
theorem is_ollama_running_transport_behaviour (st : Nat) :
    is_ollama_running (.ok st) = .ok true ∧
    is_ollama_running (.exn .connectionRefused) = .ok false ∧
    is_ollama_running (.exn .dnsFailure) = .ok false ∧
    is_ollama_running (.exn .connectTimeout) = .ok false ∧
    is_ollama_running (.exn .readTimeout) = .error .readTimeout :=
  ⟨rfl, rfl, rfl, rfl, rfl⟩

/-- C4: on any HTTP response whose status does not make
`raise_for_status()` raise and whose body parses, `query_ollama` returns
the "response" field stripped of leading and trailing whitespace, and the
empty string when the field is absent. -/
theorem query_ollama_success_extraction (prompt model : String)
    (status : Nat) (fields : List (String × String))
    (hs : ¬(400 ≤ status ∧ status < 600)) :
    (∀ v, lookupField fields "response" = some v →
      query_ollama prompt model (.response status (some fields)) = .ok (pyStrip v)) ∧
    (lookupField fields "response" = none →
      query_ollama prompt model (.response status (some fields)) = .ok "") := by
  constructor
  · intro v hv
    simp only [query_ollama, if_neg hs, hv, Option.getD_some]
  · intro hv
    simp only [query_ollama, if_neg hs, hv, Option.getD_none]
    rfl

/-- C4 witness: the payload with "response" field "  hello world  " and
status 200 yields "hello world". -/
theorem query_ollama_success_extraction_witness :
    ¬(400 ≤ 200 ∧ 200 < 600) ∧
    lookupField [("response", "  hello world  ")] "response" = some "  hello world  " ∧
    query_ollama "p" "phi3:latest"
      (.response 200 (some [("response", "  hello world  ")])) = .ok "hello world" :=
  ⟨by decide, by decide,
    ((query_ollama_success_extraction "p" "phi3:latest" 200
        [("response", "  hello world  ")] (by decide)).1
      "  hello world  " (by decide)).trans (congrArg Except.ok (by decide))⟩

/-! ### Helper lemmas about `summarise_file` and `mainRun` -/

theorem summarise_file_notFound (w : World) (fp m : String)
    (h : w.file fp = .notFound) : summarise_file w fp m = (1, []) := by
  simp [summarise_file, h]

theorem summarise_file_readError (w : World) (fp m : String)
    (h : w.file fp = .readError) : summarise_file w fp m = (1, []) := by
  simp [summarise_file, h]

theorem summarise_file_empty (w : World) (fp m t : String)
    (h : w.file fp = .content t) (ht : pyStrip t = "") :
    summarise_file w fp m = (1, []) := by
  simp [summarise_file, h, ht]

theorem summarise_file_gen_error (w : World) (fp m t : String) (err : GenError)
    (h : w.file fp = .content t) (ht : pyStrip t ≠ "")
    (hg : query_ollama (summarisePrompt t) m w.gen = .error err) :
    summarise_file w fp m = (1, [.generate m (summarisePrompt t)]) := by
  simp [summarise_file, h, ht, hg]

theorem summarise_file_gen_ok (w : World) (fp m t out : String)
    (h : w.file fp = .content t) (ht : pyStrip t ≠ "")
    (hg : query_ollama (summarisePrompt t) m w.gen = .ok out) :
    summarise_file w fp m = (0, [.generate m (summarisePrompt t)]) := by
  simp [summarise_file, h, ht, hg]

theorem summarise_file_ops (w : World) (fp m : String) :
    (summarise_file w fp m).2 = [] ∨
    ∃ p, (summarise_file w fp m).2 = [NetOp.generate m p] := by
  rcases hf : w.file fp with _ | _ | t
  · exact Or.inl (by rw [summarise_file_notFound w fp m hf])
  · exact Or.inl (by rw [summarise_file_readError w fp m hf])
  · by_cases ht : pyStrip t = ""
    · exact Or.inl (by rw [summarise_file_empty w fp m t hf ht])
    · rcases hg : query_ollama (summarisePrompt t) m w.gen with err | out
      · exact Or.inr ⟨summarisePrompt t,
          by rw [summarise_file_gen_error w fp m t err hf ht hg]⟩
      · exact Or.inr ⟨summarisePrompt t,
          by rw [summarise_file_gen_ok w fp m t out hf ht hg]⟩

theorem mainRun_question_probe_fail (args : List String) (w : World)
    (m : String) (rest : List String) (v r sp : Bool)
    (hp : parseArgs args = .question m rest v r sp)
    (hq : is_ollama_running w.probe ≠ .ok true) :
    mainRun args w = (1, [.probe]) := by
  rcases hqe : is_ollama_running w.probe with e | b
  · simp [mainRun, hp, hqe]
  · cases b
    · simp [mainRun, hp, hqe]
    · exact absurd hqe hq

theorem mainRun_question_unknown (args : List String) (w : World)
    (m : String) (rest : List String) (v r sp : Bool) (msg : String)
    (hp : parseArgs args = .question m rest v r sp)
    (hq : is_ollama_running w.probe = .ok true)
    (hr : resolve_model_name m = .error msg) :
    mainRun args w = (1, [.probe]) := by
  simp [mainRun, hp, hq, hr]

theorem mainRun_question_resolved (args : List String) (w : World)
    (m res : String) (rest : List String) (v r sp : Bool)
    (hp : parseArgs args = .question m rest v r sp)
    (hq : is_ollama_running w.probe = .ok true)
    (hr : resolve_model_name m = .ok res) :
    mainRun args w =
      (0, [.probe, .generate res (questionPrompt (joinSpace rest))]) := by
  simp [mainRun, hp, hq, hr]

theorem mainRun_summarise_probe_fail (args : List String) (w : World)
    (m fp : String) (rest : List String) (v r sp : Bool)
    (hp : parseArgs args = .summarise m fp rest v r sp)
    (hq : is_ollama_running w.probe ≠ .ok true) :
    mainRun args w = (1, [.probe]) := by
  rcases hqe : is_ollama_running w.probe with e | b
  · simp [mainRun, hp, hqe]
  · cases b
    · simp [mainRun, hp, hqe]
    · exact absurd hqe hq

theorem mainRun_summarise_unknown (args : List String) (w : World)
    (m fp : String) (rest : List String) (v r sp : Bool) (msg : String)
    (hp : parseArgs args = .summarise m fp rest v r sp)
    (hq : is_ollama_running w.probe = .ok true)
    (hr : resolve_model_name m = .error msg) :
    mainRun args w = (1, [.probe]) := by
  simp [mainRun, hp, hq, hr]

theorem mainRun_summarise_resolved (args : List String) (w : World)
    (m fp res : String) (rest : List String) (v r sp : Bool)
    (hp : parseArgs args = .summarise m fp rest v r sp)
    (hq : is_ollama_running w.probe = .ok true)
    (hr : resolve_model_name m = .ok res) :
    mainRun args w =
      ((summarise_file w fp res).1, .probe :: (summarise_file w fp res).2) := by
  simp [mainRun, hp, hq, hr]

theorem mainRun_parse_failure (args : List String) (w : World) :
    (parseArgs args = .usage → mainRun args w = (1, [])) ∧
    (parseArgs args = .missingModelValue → mainRun args w = (1, [])) ∧
    (∀ m v r sp, parseArgs args = .missingSummariseValue m v r sp →
      mainRun args w = (1, [])) := by
  refine ⟨fun hp => by simp [mainRun, hp], fun hp => by simp [mainRun, hp],
    fun m v r sp hp => by simp [mainRun, hp]⟩

/-- A world with a reachable backend, no readable files, and a generation
call that succeeds with payload field "response" set to " ok ". -/
def W0 : World :=
  ⟨.ok 200, fun _ => .notFound, .response 200 (some [("response", " ok ")])⟩

/-- A world whose liveness probe fails with a refused connection. -/
def W1 : World :=
  ⟨.exn .connectionRefused, fun _ => .notFound, .transportError⟩

/-- The number of generate calls in a network-operation trace. -/
def genCount (ops : List NetOp) : Nat :=
  ops.countP fun op =>
    match op with
    | .generate _ _ => true
    | .probe => false

/-- C3 counterexample: with a reachable backend and the unknown model name
"nosuchmodelxyz", alias resolution fails, yet the invocation has already
performed the liveness probe (the trace is `[.probe]`, not `[]`): the
probe runs BEFORE resolution, so the process does not exit before a
network call. -/
theorem unknown_model_exit_after_probe :
    resolve_model_name "nosuchmodelxyz" = .error "that model isn\x27t available" ∧
    mainRun ["--model", "nosuchmodelxyz", "hi"] W0 = (1, [NetOp.probe]) :=
  ⟨rfl, rfl⟩

/-- C3 (amended): in both the summarise and the question path the liveness
probe is performed BEFORE alias resolution; when resolution fails with
the unknown-model error, the process exits with code 1 after exactly one
network call, the probe. -/
theorem probe_runs_before_resolution (args : List String) (w : World)
    (m : String) (rest : List String) (v r sp : Bool) (msg : String) :
    (parseArgs args = .question m rest v r sp →
      is_ollama_running w.probe = .ok true →
      resolve_model_name m = .error msg →
      mainRun args w = (1, [NetOp.probe])) ∧
    (∀ fp, parseArgs args = .summarise m fp rest v r sp →
      is_ollama_running w.probe = .ok true →
      resolve_model_name m = .error msg →
      mainRun args w = (1, [NetOp.probe])) :=
  ⟨fun hp hq hr => mainRun_question_unknown args w m rest v r sp msg hp hq hr,
   fun fp hp hq hr => mainRun_summarise_unknown args w m fp rest v r sp msg hp hq hr⟩

/-- C3 witness: invocation `--model mystery-model hi` against a reachable
backend parses into the question path, the probe answers, resolution then
fails, and the run exits 1 with the probe in the trace. -/
theorem probe_runs_before_resolution_witness :
    parseArgs ["--model", "mystery-model", "hi"] =
      .question "mystery-model" ["hi"] false false true ∧
    is_ollama_running W0.probe = .ok true ∧
    resolve_model_name "mystery-model" = .error "that model isn\x27t available" ∧
    mainRun ["--model", "mystery-model", "hi"] W0 = (1, [NetOp.probe]) :=
  ⟨by decide, rfl, rfl,
    (probe_runs_before_resolution ["--model", "mystery-model", "hi"] W0
      "mystery-model" ["hi"] false false true "that model isn\x27t available").1
      (by decide) rfl rfl⟩

/-- C6: exit code 1 on every precondition failure (no arguments, missing
value after `--model` or `--summarise`, backend unreachable or probe crash,
unknown model, missing/unreadable/empty file), exit code 0 on success, and
exit code 0 in the question path even when the generate call fails in-band;
a generate failure in the summarise path, however, is an unhandled
exception (exit code 1). -/
theorem mainRun_exit_codes (args : List String) (w : World) :
    (parseArgs args = .usage → mainRun args w = (1, [])) ∧
    (parseArgs args = .missingModelValue → mainRun args w = (1, [])) ∧
    (∀ m v r sp, parseArgs args = .missingSummariseValue m v r sp →
      mainRun args w = (1, [])) ∧
    (∀ m fp rest v r sp, parseArgs args = .summarise m fp rest v r sp →
      (is_ollama_running w.probe ≠ .ok true → (mainRun args w).1 = 1) ∧
      (∀ msg, is_ollama_running w.probe = .ok true →
        resolve_model_name m = .error msg → (mainRun args w).1 = 1) ∧
      (∀ res, is_ollama_running w.probe = .ok true →
        resolve_model_name m = .ok res →
        ((w.file fp = .notFound → (mainRun args w).1 = 1) ∧
         (w.file fp = .readError → (mainRun args w).1 = 1) ∧
         (∀ t, w.file fp = .content t → pyStrip t = "" →
           (mainRun args w).1 = 1) ∧
         (∀ t out, w.file fp = .content t → pyStrip t ≠ "" →
           query_ollama (summarisePrompt t) res w.gen = .ok out →
           (mainRun args w).1 = 0) ∧
         (∀ t err, w.file fp = .content t → pyStrip t ≠ "" →
           query_ollama (summarisePrompt t) res w.gen = .error err →
           (mainRun args w).1 = 1)))) ∧
    (∀ m rest v r sp, parseArgs args = .question m rest v r sp →
      (is_ollama_running w.probe ≠ .ok true → (mainRun args w).1 = 1) ∧
      (∀ msg, is_ollama_running w.probe = .ok true →
        resolve_model_name m = .error msg → (mainRun args w).1 = 1) ∧
      (∀ res, is_ollama_running w.probe = .ok true →
        resolve_model_name m = .ok res → (mainRun args w).1 = 0)) := by
  refine ⟨?_, ?_, ?_, ?_, ?_⟩
  · intro hp
    rw [(mainRun_parse_failure args w).1 hp]
  · intro hp
    rw [(mainRun_parse_failure args w).2.1 hp]
  · intro m v r sp hp
    rw [(mainRun_parse_failure args w).2.2 m v r sp hp]
  · intro m fp rest v r sp hp
    refine ⟨?_, ?_, ?_⟩
    · intro hq
      rw [mainRun_summarise_probe_fail args w m fp rest v r sp hp hq]
    · intro msg hq hr
      rw [mainRun_summarise_unknown args w m fp rest v r sp msg hp hq hr]
    · intro res hq hr
      rw [mainRun_summarise_resolved args w m fp res rest v r sp hp hq hr]
      refine ⟨?_, ?_, ?_, ?_, ?_⟩
      · intro hf
        rw [summarise_file_notFound w fp res hf]
      · intro hf
        rw [summarise_file_readError w fp res hf]
      · intro t hf ht
        rw [summarise_file_empty w fp res t hf ht]
      · intro t out hf ht hg
        rw [summarise_file_gen_ok w fp res t out hf ht hg]
      · intro t err hf ht hg
        rw [summarise_file_gen_error w fp res t err hf ht hg]
  · intro m rest v r sp hp
    refine ⟨?_, ?_, ?_⟩
    · intro hq
      rw [mainRun_question_probe_fail args w m rest v r sp hp hq]
    · intro msg hq hr
      rw [mainRun_question_unknown args w m rest v r sp msg hp hq hr]
    · intro res hq hr
      rw [mainRun_question_resolved args w m res rest v r sp hp hq hr]

/-- C6 witness: the plain question invocation `hi` against the reachable
world exits with code 0. -/
theorem mainRun_exit_codes_witness :
    parseArgs ["hi"] = .question "phi3:latest" ["hi"] false false false ∧
    (mainRun ["hi"] W0).1 = 0 :=
  ⟨by decide,
    ((mainRun_exit_codes ["hi"] W0).2.2.2.2 "phi3:latest" ["hi"] false false false
      (by decide)).2.2 "phi3:latest" rfl rfl⟩

/-- C7 counterexample: the invocation `hi` against an unreachable backend
issues ZERO generate calls (and exits 1), so it is not the case that every
invocation issues exactly one InferenceRequest. -/
theorem invocation_without_generate :
    genCount (mainRun ["hi"] W1).2 = 0 ∧ (mainRun ["hi"] W1).1 = 1 :=
  ⟨rfl, rfl⟩

/-- C7 (amended): every invocation performs at most two network operations,
a probe optionally followed by a single generate call (never retried,
never reordered); when the liveness probe does not succeed, no generate
call is attempted. -/
theorem mainRun_network_trace (args : List String) (w : World) :
    ((mainRun args w).2 = [] ∨ (mainRun args w).2 = [NetOp.probe] ∨
      ∃ m p, (mainRun args w).2 = [NetOp.probe, NetOp.generate m p]) ∧
    (is_ollama_running w.probe ≠ .ok true →
      (mainRun args w).2 = [] ∨ (mainRun args w).2 = [NetOp.probe]) := by
  cases hp : parseArgs args with
  | usage =>
    rw [(mainRun_parse_failure args w).1 hp]
    exact ⟨Or.inl rfl, fun _ => Or.inl rfl⟩
  | missingModelValue =>
    rw [(mainRun_parse_failure args w).2.1 hp]
    exact ⟨Or.inl rfl, fun _ => Or.inl rfl⟩
  | missingSummariseValue m v r sp =>
    rw [(mainRun_parse_failure args w).2.2 m v r sp hp]
    exact ⟨Or.inl rfl, fun _ => Or.inl rfl⟩
  | summarise m fp rest v r sp =>
    by_cases hq : is_ollama_running w.probe = .ok true
    · rcases hr : resolve_model_name m with msg | res
      · rw [mainRun_summarise_unknown args w m fp rest v r sp msg hp hq hr]
        exact ⟨Or.inr (Or.inl rfl), fun hn => absurd hq hn⟩
      · rw [mainRun_summarise_resolved args w m fp res rest v r sp hp hq hr]
        refine ⟨?_, fun hn => absurd hq hn⟩
        rcases summarise_file_ops w fp res with hs | ⟨p, hs⟩
        · rw [hs]
          exact Or.inr (Or.inl rfl)
        · rw [hs]
          exact Or.inr (Or.inr ⟨res, p, rfl⟩)
    · rw [mainRun_summarise_probe_fail args w m fp rest v r sp hp hq]
      exact ⟨Or.inr (Or.inl rfl), fun _ => Or.inr rfl⟩
  | question m rest v r sp =>
    by_cases hq : is_ollama_running w.probe = .ok true
    · rcases hr : resolve_model_name m with msg | res
      · rw [mainRun_question_unknown args w m rest v r sp msg hp hq hr]
        exact ⟨Or.inr (Or.inl rfl), fun hn => absurd hq hn⟩
      · rw [mainRun_question_resolved args w m res rest v r sp hp hq hr]
        exact ⟨Or.inr (Or.inr ⟨res, questionPrompt (joinSpace rest), rfl⟩),
          fun hn => absurd hq hn⟩
    · rw [mainRun_question_probe_fail args w m rest v r sp hp hq]
      exact ⟨Or.inr (Or.inl rfl), fun _ => Or.inr rfl⟩

/-- C7 witness: against the refused-connection world the probe does not
succeed, and the trace of the invocation `hi` contains no generate call. -/
theorem mainRun_network_trace_witness :
    is_ollama_running W1.probe ≠ .ok true ∧
    ((mainRun ["hi"] W1).2 = [] ∨ (mainRun ["hi"] W1).2 = [NetOp.probe]) :=
  ⟨by simp [W1, is_ollama_running, isConnectionError],
    (mainRun_network_trace ["hi"] W1).2
      (by simp [W1, is_ollama_running, isConnectionError])⟩

/-! ### Helper lemmas about substring containment and joining -/

theorem data_append (s t : String) : (s ++ t).data = s.data ++ t.data := rfl

theorem isPrefixOf_append_l (n : List Char) :
    ∀ h1 h2 : List Char, n.isPrefixOf h1 = true → n.isPrefixOf (h1 ++ h2) = true := by
  induction n with
  | nil => intro h1 h2 _; simp [List.isPrefixOf]
  | cons a n ih =>
    intro h1 h2 hp
    cases h1 with
    | nil => simp [List.isPrefixOf] at hp
    | cons b t =>
      simp only [List.isPrefixOf, Bool.and_eq_true] at hp
      simp only [List.cons_append, List.isPrefixOf, Bool.and_eq_true]
      exact ⟨hp.1, ih t h2 hp.2⟩

theorem isPrefixOf_self (n : List Char) : n.isPrefixOf n = true := by
  induction n with
  | nil => rfl
  | cons a t ih => simp [List.isPrefixOf, ih]

theorem listContains_of_isPrefixOf (n h : List Char)
    (hp : n.isPrefixOf h = true) : listContains n h = true := by
  cases h with
  | nil => simpa [listContains] using hp
  | cons c t => simp [listContains, hp]

theorem listContains_cons (n : List Char) (c : Char) (h : List Char)
    (hc : listContains n h = true) : listContains n (c :: h) = true := by
  simp [listContains, hc]

theorem listContains_append_right (n h1 h2 : List Char)
    (hc : listContains n h2 = true) : listContains n (h1 ++ h2) = true := by
  induction h1 with
  | nil => simpa using hc
  | cons c t ih => simpa [List.cons_append] using listContains_cons n c (t ++ h2) ih

theorem listContains_append_left (n : List Char) :
    ∀ h1 h2 : List Char, listContains n h1 = true → listContains n (h1 ++ h2) = true := by
  intro h1
  induction h1 with
  | nil =>
    intro h2 hc
    cases n with
    | nil => exact listContains_of_isPrefixOf [] h2 (by simp [List.isPrefixOf])
    | cons a t => simp [listContains, List.isPrefixOf] at hc
  | cons c t ih =>
    intro h2 hc
    simp only [listContains, Bool.or_eq_true] at hc
    rcases hc with hc | hc
    · exact listContains_of_isPrefixOf n ((c :: t) ++ h2)
        (isPrefixOf_append_l n (c :: t) h2 hc)
    · exact listContains_cons n c (t ++ h2) (ih h2 hc)

theorem listContains_surround (n : List Char) (pre q post : String)
    (h : listContains n q.data = true) :
    listContains n (pre ++ q ++ post).data = true := by
  have he : (pre ++ q ++ post).data = (pre.data ++ q.data) ++ post.data := rfl
  rw [he]
  exact listContains_append_left n (pre.data ++ q.data) post.data
    (listContains_append_right n pre.data q.data h)

theorem questionPrompt_contains (n : List Char) (q : String)
    (h : listContains n q.data = true) :
    listContains n (questionPrompt q).data = true :=
  listContains_surround n
    ("You are a concise command-line assistant. " ++
     "Return clear answers and minimal explanations, using code blocks where helpful.\n\n" ++
     "Question: ") q "\n" h

theorem listContains_joinSpace (x : String) :
    ∀ l : List String, l.contains x = true →
      listContains x.data (joinSpace l).data = true := by
  intro l
  induction l with
  | nil => intro hm; simp at hm
  | cons a t ih =>
    intro hm
    rcases hp : t with _ | ⟨b, t2⟩
    · subst hp
      have hx : x = a := by simpa using hm
      subst hx
      exact listContains_of_isPrefixOf x.data (joinSpace [x]).data
        (isPrefixOf_self x.data)
    · subst hp
      have hj : joinSpace (a :: b :: t2) = a ++ " " ++ joinSpace (b :: t2) := rfl
      rw [hj]
      have hd : (a ++ " " ++ joinSpace (b :: t2)).data =
          (a.data ++ " ".data) ++ (joinSpace (b :: t2)).data := rfl
      rw [hd]
      have hm2 : x = a ∨ (b :: t2).contains x = true := by
        simpa using hm
      rcases hm2 with he | hin
      · subst he
        exact listContains_append_left x.data (x.data ++ " ".data) _
          (listContains_append_left x.data x.data _ (listContains_of_isPrefixOf _ _ (isPrefixOf_self x.data)))
      · exact listContains_append_right x.data _ _ (ih hin)

theorem parseArgs_question_flags (args : List String) (m : String)
    (rest : List String) (v r sp : Bool)
    (hp : parseArgs args = .question m rest v r sp) :
    v = args.contains "--verbose" ∧ r = args.contains "--raw" := by
  by_cases h0 : args = []
  · rw [h0] at hp
    simp [parseArgs] at hp
  · simp only [parseArgs, if_neg h0] at hp
    cases he : extractOpt "--model" args with
    | absent =>
      rw [he] at hp
      simp only [afterModel] at hp
      cases hs : extractOpt "--summarise" args with
      | absent =>
        rw [hs] at hp
        simp only [ParseResult.question.injEq] at hp
        exact ⟨hp.2.2.1.symm, hp.2.2.2.1.symm⟩
      | missingValue =>
        rw [hs] at hp
        simp at hp
      | found sv srest =>
        rw [hs] at hp
        simp at hp
    | missingValue =>
      rw [he] at hp
      simp at hp
    | found mv mrest =>
      rw [he] at hp
      simp only [afterModel] at hp
      cases hs : extractOpt "--summarise" mrest with
      | absent =>
        rw [hs] at hp
        simp only [ParseResult.question.injEq] at hp
        exact ⟨hp.2.2.1.symm, hp.2.2.2.1.symm⟩
      | missingValue =>
        rw [hs] at hp
        simp at hp
      | found sv srest =>
        rw [hs] at hp
        simp at hp

/-- C10 counterexample: in `--model --verbose hi` the `--verbose` token IS
detected by the membership test (the verbose flag of the parse is true) and
the invocation is in question mode, yet the token was consumed as the value
of `--model`, so it appears neither in the joined question string "hi" nor
in the prompt built from it. -/
theorem verbose_flag_swallowed_by_model :
    ["--model", "--verbose", "hi"].contains "--verbose" = true ∧
    parseArgs ["--model", "--verbose", "hi"] =
      .question "--verbose" ["hi"] true false true ∧
    listContains "--verbose".data (joinSpace ["hi"]).data = false ∧
    listContains "--verbose".data (questionPrompt (joinSpace ["hi"])).data = false :=
  ⟨by decide, by decide, by decide, by decide⟩

/-- C10 (amended): `--verbose` and `--raw` are detected by membership tests
on the original argument list and are never explicitly removed, so whenever
either flag is supplied in question mode and is not consumed as the value
of `--model`, its literal token still sits in the remaining arguments and
therefore appears verbatim inside the question string joined from them and
inside the prompt sent to the backend. -/
theorem flags_not_removed_in_question (args : List String) (m : String)
    (rest : List String) (v r sp : Bool)
    (hp : parseArgs args = .question m rest v r sp) :
    v = args.contains "--verbose" ∧ r = args.contains "--raw" ∧
    (rest.contains "--verbose" = true →
      listContains "--verbose".data (joinSpace rest).data = true ∧
      listContains "--verbose".data (questionPrompt (joinSpace rest)).data = true) ∧
    (rest.contains "--raw" = true →
      listContains "--raw".data (joinSpace rest).data = true ∧
      listContains "--raw".data (questionPrompt (joinSpace rest)).data = true) := by
  refine ⟨(parseArgs_question_flags args m rest v r sp hp).1,
    (parseArgs_question_flags args m rest v r sp hp).2, ?_, ?_⟩
  · intro hm
    have h1 := listContains_joinSpace "--verbose" rest hm
    exact ⟨h1, questionPrompt_contains _ _ h1⟩
  · intro hm
    have h1 := listContains_joinSpace "--raw" rest hm
    exact ⟨h1, questionPrompt_contains _ _ h1⟩

/-- C10 witness: in `--verbose hello` the flag is kept in the remaining
arguments and appears verbatim in the prompt. -/
theorem flags_not_removed_in_question_witness :
    parseArgs ["--verbose", "hello"] =
      .question "phi3:latest" ["--verbose", "hello"] true false false ∧
    (["--verbose", "hello"] : List String).contains "--verbose" = true ∧
    listContains "--verbose".data
      (questionPrompt (joinSpace ["--verbose", "hello"])).data = true :=
  ⟨by decide, by decide,
    ((flags_not_removed_in_question ["--verbose", "hello"] "phi3:latest"
        ["--verbose", "hello"] true false false (by decide)).2.2.1 (by decide)).2⟩
